import Mathlib

/-!
# PromptRefiner — verification of the refinement endpoint and client logic

Shallow embedding of the logic-bearing parts of the PromptRefiner repository:

* the `POST /api/refine` route handler (`src/app/api/refine/route.ts`):
  request validation, credential resolution, the outbound upstream call,
  fallback substitution when the upstream reply is not parseable JSON, and
  the suggestion normalization pass;
* the client refinement pipeline (`PromptRefiner.tsx`): the state updates
  performed by `refinePrompt` when a call starts and when it resolves;
* the credential-setup form (`ApiKeySetup.tsx` `handleSubmit`) and the
  session manager (`PromptRefinerApp.tsx` `handleApiKeySet`).

JavaScript numbers are modelled as rationals (`ℚ`); in the clarity pipeline,
where `Math.min`/`Math.max` coerce arbitrary JSON values and can produce
`NaN`, numbers are modelled as `JsNum` (a rational or `NaN`).  JavaScript
strings are Lean `String`s.  JavaScript string helpers used by the source
(`trim`, `startsWith`, the `||` default operator) are embedded as
kernel-computable Lean functions below.
-/

namespace PromptRefiner

/-- Embeds JavaScript `String.prototype.trim`: removes leading and trailing
whitespace.  Implemented structurally over the character list so that it
evaluates inside the kernel. -/
def jsTrim (s : String) : String :=
  String.mk (((s.toList.dropWhile Char.isWhitespace).reverse.dropWhile
    Char.isWhitespace).reverse)

/-- Embeds JavaScript `String.prototype.startsWith`. -/
def jsStartsWith (s pre : String) : Bool :=
  pre.toList.isPrefixOf s.toList

/-- Embeds the JavaScript `a || b` default operator on a possibly-absent
string value: `undefined` and the empty string are falsy. -/
def jsOrStr (v : Option String) (d : String) : String :=
  match v with
  | none => d
  | some s => if s = "" then d else s

/-- A JavaScript number: a finite value (rational) or `NaN`.  (JavaScript
infinities never arise in the embedded code paths.) -/
inductive JsNum where
  | nan : JsNum
  | num (q : ℚ) : JsNum
deriving DecidableEq

/-- A JSON value sitting in the `clarity` field of an upstream suggestion,
abstracted to the only two attributes the handler's expression
`Math.max(1, Math.min(10, suggestion.clarity || 5))` observes: its
JavaScript truthiness (consulted by `||`) and its ToNumber coercion
(applied by `Math.min`, with `none` standing for `NaN`).  Every JSON
value maps into this type: the number `7` is `⟨true, some 7⟩`, the number
`0` is `⟨false, some 0⟩`, the string `"high"` is `⟨true, none⟩`, the
string `"7"` is `⟨true, some 7⟩`, `null` is `⟨false, some 0⟩`, `false` is
`⟨false, some 0⟩`, an object is `⟨true, none⟩`.  (Falsy JSON values all
coerce to `0`, so their `toNumber` is never consulted.) -/
structure ClarityValue where
  truthy : Bool
  toNumber : Option ℚ
deriving DecidableEq

/-- The JSON number `q` viewed as a clarity field value: truthy unless
zero, coercing to itself. -/
def numClarity (q : ℚ) : ClarityValue :=
  { truthy := decide (q ≠ 0), toNumber := some q }

/-- The JavaScript number `NaN` viewed as a clarity field value: falsy
(so `NaN || 5` yields `5`), coercing to `NaN`.  `JSON.parse` never
produces it, but the normalization itself can, which matters for the
idempotence question. -/
def nanClarity : ClarityValue :=
  { truthy := false, toNumber := none }

/-- A JSON value as it can appear in the request body field `prompt`.
Arrays and objects are kept opaque: the handler only ever checks the
field's truthiness and `typeof`, never its contents. -/
inductive JsonVal where
  | jnull : JsonVal
  | jbool (b : Bool) : JsonVal
  | jnum (q : ℚ) : JsonVal
  | jstr (s : String) : JsonVal
  | jarr : JsonVal
  | jobj : JsonVal
deriving DecidableEq

/-- Embeds the route's prompt validation
`if (!prompt || typeof prompt !== 'string')`: the field passes exactly when
it is a string and truthy (non-empty); the validated string is returned. -/
def promptString : Option JsonVal → Option String
  | some (JsonVal.jstr s) => if s = "" then none else some s
  | _ => none

/-- Decidable rendering of "the `prompt` field is absent, `null`, or not a
string" (the empty string, which is a string, is excluded). -/
def isNonStringPromptField : Option JsonVal → Bool
  | none => true
  | some (JsonVal.jstr _) => false
  | some _ => true

/-- Embeds the credential resolution
`const openaiApiKey = apiKey || process.env.OPENAI_API_KEY` followed by
`if (!openaiApiKey)`: the request key is preferred when truthy, the
environment key is the fallback, and a falsy result resolves to nothing. -/
def resolveKey (apiKey envKey : Option String) : Option String :=
  let merged : Option String :=
    match apiKey with
    | none => envKey
    | some s => if s = "" then envKey else some s
  match merged with
  | none => none
  | some s => if s = "" then none else some s

/-- A suggestion object as it appears inside the upstream `suggestions`
array after `JSON.parse`: every field may be absent, and `clarity` may be
any JSON value (captured by its observable attributes in
`ClarityValue`). -/
structure RawSuggestion where
  id : Option String
  refined : Option String
  clarity : Option ClarityValue
  explanation : Option String
deriving DecidableEq

/-- The JavaScript value of `parsedResponse.suggestions`, classified by
how `(parsedResponse.suggestions || []).slice(0, 3).map(...)` treats it:
absent or falsy (replaced by `[]` by the `||`), an array of suggestion
objects, or any truthy non-array value — on which `.slice` or `.map` is
undefined and the route throws a `TypeError`. -/
inductive SuggestionsField where
  | missing : SuggestionsField
  | arr (l : List RawSuggestion) : SuggestionsField
  | truthyNonArray : SuggestionsField
deriving DecidableEq

/-- The result of a successful `JSON.parse(content)`: either the JSON
root `null` — on which the route's very first property access
`parsedResponse.suggestions` throws a `TypeError` — or any non-null root
together with the classification of its `suggestions` property (a
non-object root such as a number simply has `suggestions` undefined,
i.e. `SuggestionsField.missing`). -/
inductive ParsedResponse where
  | nullRoot : ParsedResponse
  | value (suggestions : SuggestionsField) : ParsedResponse
deriving DecidableEq

/-- A fully normalized suggestion as returned to the browser
(interface `RefinedPrompt` in `route.ts`).  The clarity is a JavaScript
number, which can be `NaN` when a truthy non-numeric upstream value went
through the clamp. -/
structure RefinedPrompt where
  id : String
  refined : String
  clarity : JsNum
  explanation : String
deriving DecidableEq

/-- Embeds `suggestion.clarity || 5`: the field's own value when present
and truthy, otherwise the number `5`. -/
def clarityOrFive (c : Option ClarityValue) : ClarityValue :=
  match c with
  | none => numClarity 5
  | some cv => if cv.truthy then cv else numClarity 5

/-- Embeds the clarity normalization
`Math.max(1, Math.min(10, suggestion.clarity || 5))`: the `||` default,
then ToNumber coercion by `Math.min`/`Math.max`, through which `NaN`
propagates. -/
def clampClarity (c : Option ClarityValue) : JsNum :=
  match (clarityOrFive c).toNumber with
  | none => JsNum.nan
  | some q => JsNum.num (max 1 (min 10 q))

/-- Embeds the per-entry sanitization in the route's
`.map((suggestion, index) => ...)`: positional id, original prompt, clamped
clarity, and a generic explanation as fallbacks. -/
def sanitize (prompt : String) (index : ℕ) (s : RawSuggestion) : RefinedPrompt :=
  { id := jsOrStr s.id (toString (index + 1))
    refined := jsOrStr s.refined prompt
    clarity := clampClarity s.clarity
    explanation := jsOrStr s.explanation "General improvement suggestion." }

/-- Embeds `(parsedResponse.suggestions || []).slice(0, 3).map(...)`. -/
def normalizeSuggestions (prompt : String) (l : List RawSuggestion) :
    List RefinedPrompt :=
  (l.take 3).enum.map fun p => sanitize prompt p.1 p.2

/-- Embeds the `refined` text of the fallback suggestion the handler
synthesizes when `JSON.parse(content)` throws; it interpolates the trimmed
original prompt. -/
def fallbackRefined (prompt : String) : String :=
  "Be more specific about what you want to know: \"" ++ jsTrim prompt ++
    "\" - what particular aspect interests you most?"

/-- Embeds the whole fallback `parsedResponse` object built in the
`catch` branch around `JSON.parse(content)`: a non-null object whose
`suggestions` property is a one-element array with the numeric clarity
`6`. -/
def fallbackParsed (prompt : String) : ParsedResponse :=
  ParsedResponse.value (SuggestionsField.arr [
    { id := some "1"
      refined := some (fallbackRefined prompt)
      clarity := some (numClarity 6)
      explanation :=
        some "Adding specificity helps get more targeted and useful responses." }])

/-- Embeds `(parsedResponse.suggestions || []).slice(0, 3).map(...)` as
the route executes it inside the handler's outer `try`: `none` models the
`TypeError` thrown when the parsed root is `null` (property access on
`null`) or when `suggestions` is truthy but not an array (`.slice` or
`.map` undefined); that exception is converted to the generic 500 by the
outer `catch`. -/
def extractSuggestions (prompt : String) : ParsedResponse → Option (List RefinedPrompt)
  | ParsedResponse.nullRoot => none
  | ParsedResponse.value SuggestionsField.missing => some (normalizeSuggestions prompt [])
  | ParsedResponse.value (SuggestionsField.arr l) => some (normalizeSuggestions prompt l)
  | ParsedResponse.value SuggestionsField.truthyNonArray => none

/-- Outcome of `JSON.parse(content)` on the upstream message content:
either the parse throws, or it yields a (duck-typed) parsed value. -/
inductive ParseOutcome where
  | parseFail : ParseOutcome
  | parsed (p : ParsedResponse) : ParseOutcome
deriving DecidableEq

/-- Observable behaviour of the awaited upstream fetch, as the handler
consumes it: a non-ok HTTP status (`!response.ok` throws), a missing or
empty message content (`if (!content) throw`), or a content string summed
up by what `JSON.parse` makes of it. -/
inductive UpstreamOutcome where
  | httpError (status : ℕ) : UpstreamOutcome
  | noContent : UpstreamOutcome
  | content (c : ParseOutcome) : UpstreamOutcome
deriving DecidableEq

/-- Body of the handler's `NextResponse.json(...)`: error responses carry
`\x7b error \x7d`, success responses carry `\x7b suggestions \x7d`, never both. -/
inductive ApiBody where
  | errorBody (msg : String) : ApiBody
  | suggestionsBody (l : List RefinedPrompt) : ApiBody
deriving DecidableEq

/-- An HTTP response produced by the handler: status plus JSON body. -/
structure ApiResponse where
  status : ℕ
  body : ApiBody
deriving DecidableEq

/-- The observable parts of the outbound request to the completion API
that the claims talk about: the bearer token of the `Authorization`
header, the model identifier, and the user message content. -/
structure UpstreamCall where
  bearerToken : String
  model : String
  userContent : String
deriving DecidableEq

/-- Result of one invocation of the route handler: the HTTP response
returned to the browser, and the upstream call if one was made
(`none` means the handler returned before reaching `fetch`). -/
structure RefineResult where
  response : ApiResponse
  upstreamCall : Option UpstreamCall
deriving DecidableEq

/-- The inbound request body `\x7b prompt, apiKey \x7d` after
`await request.json()`.  The `prompt` field is an arbitrary optional JSON
value (its type is checked by the handler); the credential is modelled as
an optional string. -/
structure RefineRequest where
  prompt : Option JsonVal
  apiKey : Option String
deriving DecidableEq

/-- Embeds the `POST` handler of `src/app/api/refine/route.ts`, step by
step in source order: prompt validation (400 on failure), credential
resolution (the source replies with status 400 and
`"OpenAI API key not provided"` when nothing resolves), the upstream call,
the `try/catch` around `JSON.parse` substituting `fallbackParsed`, the
suggestion extraction and normalization pass, and the catch-all 500 both
for upstream failures and for the `TypeError`s thrown by the extraction
on a `null` root or a truthy non-array `suggestions` value. -/
def POST (envKey : Option String) (upstream : UpstreamOutcome)
    (req : RefineRequest) : RefineResult :=
  match promptString req.prompt with
  | none =>
      { response := { status := 400, body := ApiBody.errorBody "Invalid prompt provided" }
        upstreamCall := none }
  | some prompt =>
    match resolveKey req.apiKey envKey with
    | none =>
        { response := { status := 400, body := ApiBody.errorBody "OpenAI API key not provided" }
          upstreamCall := none }
    | some key =>
      let call : UpstreamCall :=
        { bearerToken := key
          model := "gpt-3.5-turbo"
          userContent := "Original prompt: \"" ++ prompt ++ "\"" }
      match upstream with
      | UpstreamOutcome.httpError _ =>
          { response := { status := 500, body := ApiBody.errorBody "Failed to refine prompt" }
            upstreamCall := some call }
      | UpstreamOutcome.noContent =>
          { response := { status := 500, body := ApiBody.errorBody "Failed to refine prompt" }
            upstreamCall := some call }
      | UpstreamOutcome.content c =>
        let parsedResponse : ParsedResponse :=
          match c with
          | ParseOutcome.parseFail => fallbackParsed prompt
          | ParseOutcome.parsed p => p
        match extractSuggestions prompt parsedResponse with
        | none =>
            { response := { status := 500, body := ApiBody.errorBody "Failed to refine prompt" }
              upstreamCall := some call }
        | some suggestions =>
            { response := { status := 200, body := ApiBody.suggestionsBody suggestions }
              upstreamCall := some call }

/-- The UI state owned by the `PromptRefiner` component that `refinePrompt`
mutates: the visible suggestion list, the loading flag, and the inline
error message. -/
structure ClientState where
  suggestions : List RefinedPrompt
  isLoading : Bool
  error : Option String
deriving DecidableEq

/-- Embeds the synchronous head of `refinePrompt(prompt)` up to its
`await`: a blank (whitespace-only) prompt clears the suggestions and
returns without dispatching; otherwise the loading flag is set, the error
cleared, and a network call dispatched (second component `true`). -/
def refineStart (prompt : String) (st : ClientState) : ClientState × Bool :=
  if jsTrim prompt = "" then
    ({ st with suggestions := [] }, false)
  else
    ({ st with isLoading := true, error := none }, true)

/-- Embeds the continuation of `refinePrompt` after its awaited call
resolves successfully: `setSuggestions(response.data.suggestions)`
followed by the `finally` block's `setIsLoading(false)`.  The source
applies this unconditionally to whichever call resolves; it carries no
generation counter or other staleness guard. -/
def refineResolveOk (result : List RefinedPrompt) (st : ClientState) : ClientState :=
  { st with suggestions := result, isLoading := false }

/-- Outcome of the `ApiKeySetup` form's `handleSubmit`: either a
user-visible error message, or the accepted (trimmed) credential handed to
`onApiKeySet`. -/
inductive SubmitOutcome where
  | rejected (errorMsg : String) : SubmitOutcome
  | accepted (key : String) : SubmitOutcome
deriving DecidableEq

/-- Embeds `handleSubmit` of `ApiKeySetup.tsx`: a blank credential is
rejected with one message, a credential not beginning with `sk-` with
another, and anything else is accepted trimmed. -/
def handleSubmit (apiKey : String) : SubmitOutcome :=
  if jsTrim apiKey = "" then
    SubmitOutcome.rejected "Please enter your OpenAI API key"
  else if jsStartsWith apiKey "sk-" = false then
    SubmitOutcome.rejected "OpenAI API keys start with \"sk-\""
  else
    SubmitOutcome.accepted (jsTrim apiKey)

/-- The Key/Session Manager state owned by `PromptRefinerApp`:
`storedKey` is the `openai-api-key` slot of session storage, `currentKey`
the React `apiKey` state.  `currentKey = none` is the Unconfigured state
(the setup view is mounted); `some` is Ready (the refiner view). -/
structure AppState where
  storedKey : Option String
  currentKey : Option String
deriving DecidableEq

/-- Embeds `handleApiKeySet` of `PromptRefinerApp.tsx` restricted to the
credential slot: the key is written to session storage and into the React
state (the sibling model-identifier slot is orthogonal to the claims). -/
def handleApiKeySet (st : AppState) (key : String) : AppState :=
  { st with storedKey := some key, currentKey := some key }

/-- Whether the manager is in the Ready state, i.e. the refiner view is
mounted (`if (!apiKey) return <ApiKeySetup/>` in the source). -/
def isReady (st : AppState) : Bool :=
  st.currentKey.isSome

/-- One submission of the setup form against the manager: `handleSubmit`
validates, and only an accepted key reaches `onApiKeySet`
(= `handleApiKeySet`).  Returns the new manager state and the form's
error message (empty when cleared by `setError('')`). -/
def submitApiKey (st : AppState) (input : String) : AppState × String :=
  match handleSubmit input with
  | SubmitOutcome.rejected msg => (st, msg)
  | SubmitOutcome.accepted key => (handleApiKeySet st key, "")

/-! ## Helper lemmas -/

/-- A string with a non-empty left part stays non-empty under append. -/
theorem append_ne_empty_left (a b : String) (h : a ≠ "") : a ++ b ≠ "" := by
  intro hc
  apply h
  apply String.ext
  have hd := congrArg String.data hc
  rw [String.data_append] at hd
  exact (List.append_eq_nil.mp hd).1

/-- The fallback `refined` text is never empty: it begins with a fixed
non-empty literal. -/
theorem fallbackRefined_ne_empty (prompt : String) : fallbackRefined prompt ≠ "" := by
  unfold fallbackRefined
  exact append_ne_empty_left _ _
    (append_ne_empty_left "Be more specific about what you want to know: \"" _
      (by decide))

/-- Whenever the clarity clamp produces a finite number, that number lies
in the closed range [1,10], and re-clamping it — as the JSON number it
is — returns it unchanged. -/
theorem clampClarity_num (c : Option ClarityValue) (q : ℚ)
    (h : clampClarity c = JsNum.num q) :
    1 ≤ q ∧ q ≤ 10 ∧ clampClarity (some (numClarity q)) = JsNum.num q := by
  unfold clampClarity at h
  cases hn : (clarityOrFive c).toNumber with
  | none => rw [hn] at h; exact absurd h (by simp)
  | some x =>
      rw [hn] at h
      have hq : max 1 (min 10 x) = q := by injection h
      subst hq
      have h1 : 1 ≤ max 1 (min 10 x) := le_max_left 1 _
      have h10 : max 1 (min 10 x) ≤ 10 := max_le (by norm_num) (min_le_left 10 x)
      refine ⟨h1, h10, ?_⟩
      have hne : max 1 (min 10 x) ≠ 0 := by
        intro h0
        rw [h0] at h1
        norm_num at h1
      have htr : (numClarity (max 1 (min 10 x))).truthy = true := by
        unfold numClarity
        simp [hne]
      have hts : clarityOrFive (some (numClarity (max 1 (min 10 x)))) =
          numClarity (max 1 (min 10 x)) := by
        show (if (numClarity (max 1 (min 10 x))).truthy = true
            then numClarity (max 1 (min 10 x)) else numClarity 5) =
          numClarity (max 1 (min 10 x))
        rw [if_pos htr]
      unfold clampClarity
      rw [hts]
      show JsNum.num (max 1 (min 10 (max 1 (min 10 x)))) = JsNum.num (max 1 (min 10 x))
      rw [min_eq_right h10, max_eq_right h1]

/-- Every normalized suggestion is the sanitization of some raw entry. -/
theorem mem_normalizeSuggestions (prompt : String) (l : List RawSuggestion)
    (s : RefinedPrompt) (hs : s ∈ normalizeSuggestions prompt l) :
    ∃ i a, s = sanitize prompt i a := by
  unfold normalizeSuggestions at hs
  rw [List.mem_map] at hs
  obtain ⟨⟨i, a⟩, _, rfl⟩ := hs
  exact ⟨i, a, rfl⟩

/-- The normalized list keeps `min n 3` entries of an `n`-entry upstream
array. -/
theorem normalizeSuggestions_length (prompt : String) (l : List RawSuggestion) :
    (normalizeSuggestions prompt l).length = min l.length 3 := by
  unfold normalizeSuggestions
  rw [List.length_map, List.enum_length, List.length_take]
  exact Nat.min_comm 3 l.length

/-- A non-empty request credential always resolves to itself, whatever the
environment holds. -/
theorem resolveKey_some_of_request (k : String) (hk : k ≠ "")
    (envKey : Option String) : resolveKey (some k) envKey = some k := by
  unfold resolveKey
  simp [hk]

/-- When the request credential is absent or empty, a resolved credential
can only have come from the environment. -/
theorem resolveKey_env (apiKey envKey : Option String)
    (h : apiKey = none ∨ apiKey = some "") (key : String)
    (hk : resolveKey apiKey envKey = some key) : envKey = some key := by
  rcases h with h | h <;> subst h <;> unfold resolveKey at hk <;>
    cases envKey with
    | none => simp at hk
    | some e =>
        by_cases he : e = ""
        · simp [he] at hk
        · simp [he] at hk
          rw [hk]

/-- Whenever the handler reaches the upstream call, the bearer token of
that call is exactly the resolved credential. -/
theorem post_upstreamCall_bearer (envKey : Option String)
    (upstream : UpstreamOutcome) (req : RefineRequest) (prompt key : String)
    (hp : promptString req.prompt = some prompt)
    (hk : resolveKey req.apiKey envKey = some key)
    (call : UpstreamCall)
    (hc : (POST envKey upstream req).upstreamCall = some call) :
    call.bearerToken = key := by
  unfold POST at hc
  rw [hp, hk] at hc
  cases upstream with
  | httpError st => simp at hc; rw [← hc]
  | noContent => simp at hc; rw [← hc]
  | content c =>
      cases c with
      | parseFail => simp [extractSuggestions, fallbackParsed] at hc; rw [← hc]
      | parsed p =>
          cases p with
          | nullRoot => simp [extractSuggestions] at hc; rw [← hc]
          | value sf =>
              cases sf with
              | missing => simp [extractSuggestions] at hc; rw [← hc]
              | arr l => simp [extractSuggestions] at hc; rw [← hc]
              | truthyNonArray => simp [extractSuggestions] at hc; rw [← hc]

/-! ## Claim theorems -/

/-- Claim C1 (code behaviour at the failing input): for a request with a
valid non-empty prompt but no request credential and no server default,
the handler responds with status 400 and the message
`"OpenAI API key not provided"` — not the status 500 with a
credential-configuration message that the claim (and the repository's own
route test) state — and makes no upstream call. -/
theorem refine_missing_credential_status_400 (upstream : UpstreamOutcome) :
    POST none upstream ⟨some (JsonVal.jstr "Test prompt"), none⟩ =
      ⟨⟨400, ApiBody.errorBody "OpenAI API key not provided"⟩, none⟩ := rfl

/-- Claim C2 (code behaviour at the failing trace): dispatch a refinement
call for prompt `"x"`, then a superseding call for `"y"`; the later call
resolves first with its suggestions, then the earlier (stale) call
resolves.  The source's resolution handler applies whichever result
resolves last, so the visible suggestions end up being those of the
superseded call — the opposite of what the claim requires. -/
theorem stale_response_applied_to_visible_state :
    (refineResolveOk [⟨"1", "About x", JsNum.num 8, "ea"⟩]
      (refineResolveOk [⟨"1", "About y", JsNum.num 9, "eb"⟩]
        ((refineStart "y" ((refineStart "x" ⟨[], false, none⟩).1)).1))).suggestions =
      [⟨"1", "About x", JsNum.num 8, "ea"⟩] ∧
    ([⟨"1", "About x", JsNum.num 8, "ea"⟩] : List RefinedPrompt) ≠
      [⟨"1", "About y", JsNum.num 9, "eb"⟩] := by
  constructor
  · decide
  · decide

/-- Claim C4: the endpoint's clarity normalization maps 15 to 10, -5 to 1,
0 to the midpoint default 5, 7 to 7, and a missing clarity to 5; shown
both on the normalization function itself and end-to-end through the
handler on the repository's own sanitization test vector. -/
theorem clarity_clamp_law :
    clampClarity (some (numClarity 15)) = JsNum.num 10 ∧
    clampClarity (some (numClarity (-5))) = JsNum.num 1 ∧
    clampClarity (some (numClarity 0)) = JsNum.num 5 ∧
    clampClarity (some (numClarity 7)) = JsNum.num 7 ∧
    clampClarity none = JsNum.num 5 ∧
    (POST none (UpstreamOutcome.content (ParseOutcome.parsed
        (ParsedResponse.value (SuggestionsField.arr
          [⟨some "1", some "Suggestion 1", some (numClarity 15), some "E1"⟩,
           ⟨some "2", some "Suggestion 2", some (numClarity (-5)), some "E2"⟩,
           ⟨some "3", some "Suggestion 3", some (numClarity 0), some "E3"⟩]))))
      ⟨some (JsonVal.jstr "Test prompt"), some "sk-key"⟩).response =
      ⟨200, ApiBody.suggestionsBody
        [⟨"1", "Suggestion 1", JsNum.num 10, "E1"⟩,
         ⟨"2", "Suggestion 2", JsNum.num 1, "E2"⟩,
         ⟨"3", "Suggestion 3", JsNum.num 5, "E3"⟩]⟩ := by
  refine ⟨by decide, by decide, by decide, by decide, by decide, by decide⟩

/-- Claim C7: whenever the request's `prompt` field is absent, `null`, or
not a string, the handler responds with status 400 and the message
`"Invalid prompt provided"`, and makes no upstream call. -/
theorem invalid_prompt_returns_400 (envKey : Option String)
    (upstream : UpstreamOutcome) (p : Option JsonVal) (k : Option String)
    (h : isNonStringPromptField p = true) :
    POST envKey upstream ⟨p, k⟩ =
      ⟨⟨400, ApiBody.errorBody "Invalid prompt provided"⟩, none⟩ := by
  have hp : promptString p = none := by
    cases p with
    | none => rfl
    | some v =>
        cases v with
        | jstr s => exact absurd h (by simp [isNonStringPromptField])
        | jnull => rfl
        | jbool b => rfl
        | jnum q => rfl
        | jarr => rfl
        | jobj => rfl
  unfold POST
  rw [hp]

/-- Witness for C7 at the concrete input `prompt = null`. -/
theorem invalid_prompt_returns_400_witness :
    isNonStringPromptField (some JsonVal.jnull) = true ∧
    POST none (UpstreamOutcome.content ParseOutcome.parseFail)
        ⟨some JsonVal.jnull, none⟩ =
      ⟨⟨400, ApiBody.errorBody "Invalid prompt provided"⟩, none⟩ :=
  ⟨rfl, invalid_prompt_returns_400 none
    (UpstreamOutcome.content ParseOutcome.parseFail) (some JsonVal.jnull) none rfl⟩

/-- Claim C3 counterexample: (i) an upstream suggestion carrying the
numeric clarity 13/2 passes through normalization unchanged, so a 200
response can carry a non-integer clarity; (ii) a truthy non-numeric
upstream clarity (e.g. the string `"high"`: truthy, ToNumber `NaN`)
reaches a 200 response as `NaN`, violating the `1 ≤ clarity ≤ 10` bound,
and re-normalizing `NaN` — which is falsy — yields the number 5, not
`NaN`, violating idempotence. -/
theorem clarity_claim_counterexample :
    ((POST none (UpstreamOutcome.content (ParseOutcome.parsed
        (ParsedResponse.value (SuggestionsField.arr
          [⟨none, none, some (numClarity (Rat.mk' 13 2)), none⟩]))))
      ⟨some (JsonVal.jstr "p"), some "sk-k"⟩).response =
      ⟨200, ApiBody.suggestionsBody
        [⟨"1", "p", JsNum.num (Rat.mk' 13 2), "General improvement suggestion."⟩]⟩) ∧
    (¬ ∃ n : ℤ, (Rat.mk' 13 2 : ℚ) = (n : ℚ)) ∧
    ((POST none (UpstreamOutcome.content (ParseOutcome.parsed
        (ParsedResponse.value (SuggestionsField.arr
          [⟨none, none, some ⟨true, none⟩, none⟩]))))
      ⟨some (JsonVal.jstr "p"), some "sk-k"⟩).response =
      ⟨200, ApiBody.suggestionsBody
        [⟨"1", "p", JsNum.nan, "General improvement suggestion."⟩]⟩) ∧
    clampClarity (some nanClarity) = JsNum.num 5 ∧
    JsNum.nan ≠ JsNum.num 5 := by
  refine ⟨by decide, ?_, by decide, by decide, by decide⟩
  rintro ⟨n, hn⟩
  have hd : (Rat.mk' 13 2 : ℚ).den = 1 := by rw [hn]; exact Rat.den_intCast n
  exact absurd hd (by decide)

/-- Claim C3 as amended: in a successful response, every suggestion whose
clarity is a finite number satisfies `1 ≤ clarity ≤ 10`, and the clarity
normalization is idempotent on those values — re-normalizing such a
returned clarity, as the JSON number it is, yields it unchanged.  (The
clarity need not be an integer, since a non-integer upstream number
passes through unrounded; and a truthy non-numeric upstream value yields
clarity `NaN`, on which both the bound and idempotence fail — see the
counterexample.) -/
theorem clarity_bounds_and_idempotent (envKey : Option String)
    (upstream : UpstreamOutcome) (req : RefineRequest)
    (l : List RefinedPrompt)
    (h : (POST envKey upstream req).response.body = ApiBody.suggestionsBody l)
    (s : RefinedPrompt) (hs : s ∈ l) (q : ℚ) (hq : s.clarity = JsNum.num q) :
    1 ≤ q ∧ q ≤ 10 ∧ clampClarity (some (numClarity q)) = JsNum.num q := by
  unfold POST at h
  cases hp : promptString req.prompt with
  | none => rw [hp] at h; exact absurd h (by simp)
  | some prompt =>
    rw [hp] at h
    cases hk : resolveKey req.apiKey envKey with
    | none => rw [hk] at h; exact absurd h (by simp)
    | some key =>
      rw [hk] at h
      cases upstream with
      | httpError st => exact absurd h (by simp)
      | noContent => exact absurd h (by simp)
      | content c =>
        have hmem : ∃ L, l = normalizeSuggestions prompt L := by
          cases c with
          | parseFail =>
              simp only [extractSuggestions, fallbackParsed] at h
              simp at h
              exact ⟨_, h.symm⟩
          | parsed p =>
              cases p with
              | nullRoot => simp [extractSuggestions] at h
              | value sf =>
                  cases sf with
                  | missing =>
                      simp [extractSuggestions] at h
                      exact ⟨[], h.symm⟩
                  | arr L =>
                      simp [extractSuggestions] at h
                      exact ⟨L, h.symm⟩
                  | truthyNonArray => simp [extractSuggestions] at h
        obtain ⟨L, hl⟩ := hmem
        subst hl
        obtain ⟨i, a, rfl⟩ := mem_normalizeSuggestions _ _ _ hs
        exact clampClarity_num a.clarity q hq

/-- Witness for the amended C3 at a concrete successful response. -/
theorem clarity_bounds_and_idempotent_witness :
    ((POST none (UpstreamOutcome.content (ParseOutcome.parsed
        (ParsedResponse.value (SuggestionsField.arr
          [⟨none, none, some (numClarity 15), none⟩]))))
      ⟨some (JsonVal.jstr "p"), some "sk-k"⟩).response.body =
      ApiBody.suggestionsBody
        [⟨"1", "p", JsNum.num 10, "General improvement suggestion."⟩]) ∧
    (1 ≤ (10 : ℚ) ∧ (10 : ℚ) ≤ 10 ∧
      clampClarity (some (numClarity 10)) = JsNum.num 10) :=
  ⟨by decide,
    clarity_bounds_and_idempotent none
      (UpstreamOutcome.content (ParseOutcome.parsed
        (ParsedResponse.value (SuggestionsField.arr
          [⟨none, none, some (numClarity 15), none⟩]))))
      ⟨some (JsonVal.jstr "p"), some "sk-k"⟩
      [⟨"1", "p", JsNum.num 10, "General improvement suggestion."⟩] (by decide)
      ⟨"1", "p", JsNum.num 10, "General improvement suggestion."⟩ (by decide)
      10 rfl⟩

/-- Claim C5: with a valid prompt and a resolvable credential, an upstream
reply whose content fails `JSON.parse` still yields status 200 with
exactly one synthesized suggestion whose `refined` text interpolates the
trimmed original prompt, with fixed clarity 6 and a fixed explanation. -/
theorem unparseable_content_yields_single_fallback (envKey : Option String)
    (req : RefineRequest) (prompt key : String)
    (hp : promptString req.prompt = some prompt)
    (hk : resolveKey req.apiKey envKey = some key) :
    (POST envKey (UpstreamOutcome.content ParseOutcome.parseFail) req).response =
      ⟨200, ApiBody.suggestionsBody
        [⟨"1", fallbackRefined prompt, JsNum.num 6,
          "Adding specificity helps get more targeted and useful responses."⟩]⟩ := by
  unfold POST
  rw [hp, hk]
  simp [fallbackParsed, extractSuggestions, normalizeSuggestions, sanitize, jsOrStr,
    fallbackRefined_ne_empty prompt,
    show clampClarity (some (numClarity 6)) = JsNum.num 6 from by decide]

/-- Witness for C5 at a concrete request. -/
theorem unparseable_content_yields_single_fallback_witness :
    promptString (some (JsonVal.jstr "Test prompt")) = some "Test prompt" ∧
    resolveKey (some "sk-abc") none = some "sk-abc" ∧
    (POST none (UpstreamOutcome.content ParseOutcome.parseFail)
        ⟨some (JsonVal.jstr "Test prompt"), some "sk-abc"⟩).response =
      ⟨200, ApiBody.suggestionsBody
        [⟨"1", fallbackRefined "Test prompt", JsNum.num 6,
          "Adding specificity helps get more targeted and useful responses."⟩]⟩ :=
  ⟨rfl, rfl,
    unparseable_content_yields_single_fallback none
      ⟨some (JsonVal.jstr "Test prompt"), some "sk-abc"⟩ "Test prompt" "sk-abc"
      rfl rfl⟩

/-- Claim C6: with a valid prompt and a resolvable credential, an upstream
reply whose content parses to a `suggestions` array of length `n` yields
status 200 whose list is the normalization of the first entries in
upstream order, of length `min n 3`. -/
theorem suggestions_truncated_to_three (envKey : Option String)
    (req : RefineRequest) (prompt key : String)
    (hp : promptString req.prompt = some prompt)
    (hk : resolveKey req.apiKey envKey = some key)
    (l : List RawSuggestion) :
    (POST envKey (UpstreamOutcome.content (ParseOutcome.parsed
        (ParsedResponse.value (SuggestionsField.arr l)))) req).response =
      ⟨200, ApiBody.suggestionsBody (normalizeSuggestions prompt l)⟩ ∧
    (normalizeSuggestions prompt l).length = min l.length 3 := by
  constructor
  · unfold POST
    rw [hp, hk]
    rfl
  · exact normalizeSuggestions_length prompt l

/-- Witness for C6 at a concrete request with a five-entry upstream
array. -/
theorem suggestions_truncated_to_three_witness :
    promptString (some (JsonVal.jstr "p")) = some "p" ∧
    resolveKey (some "sk-abc") none = some "sk-abc" ∧
    ((POST none (UpstreamOutcome.content (ParseOutcome.parsed
        (ParsedResponse.value (SuggestionsField.arr
          [⟨some "1", some "S1", some (numClarity 8), some "E1"⟩,
           ⟨some "2", some "S2", some (numClarity 7), some "E2"⟩,
           ⟨some "3", some "S3", some (numClarity 9), some "E3"⟩,
           ⟨some "4", some "S4", some (numClarity 6), some "E4"⟩,
           ⟨some "5", some "S5", some (numClarity 8), some "E5"⟩]))))
      ⟨some (JsonVal.jstr "p"), some "sk-abc"⟩).response =
      ⟨200, ApiBody.suggestionsBody (normalizeSuggestions "p"
        [⟨some "1", some "S1", some (numClarity 8), some "E1"⟩,
         ⟨some "2", some "S2", some (numClarity 7), some "E2"⟩,
         ⟨some "3", some "S3", some (numClarity 9), some "E3"⟩,
         ⟨some "4", some "S4", some (numClarity 6), some "E4"⟩,
         ⟨some "5", some "S5", some (numClarity 8), some "E5"⟩])⟩ ∧
    (normalizeSuggestions "p"
        [⟨some "1", some "S1", some (numClarity 8), some "E1"⟩,
         ⟨some "2", some "S2", some (numClarity 7), some "E2"⟩,
         ⟨some "3", some "S3", some (numClarity 9), some "E3"⟩,
         ⟨some "4", some "S4", some (numClarity 6), some "E4"⟩,
         ⟨some "5", some "S5", some (numClarity 8), some "E5"⟩]).length = min 5 3) :=
  ⟨rfl, rfl,
    suggestions_truncated_to_three none
      ⟨some (JsonVal.jstr "p"), some "sk-abc"⟩ "p" "sk-abc" rfl rfl
      [⟨some "1", some "S1", some (numClarity 8), some "E1"⟩,
       ⟨some "2", some "S2", some (numClarity 7), some "E2"⟩,
       ⟨some "3", some "S3", some (numClarity 9), some "E3"⟩,
       ⟨some "4", some "S4", some (numClarity 6), some "E4"⟩,
       ⟨some "5", some "S5", some (numClarity 8), some "E5"⟩]⟩

/-- Claim C10 counterexample: valid upstream JSON on which the route's
suggestion extraction throws refutes the claim that wrong-shape valid
JSON never yields an error: a truthy non-array `suggestions` value (such
as the number 7) and a `null` JSON root both produce HTTP 500 with the
generic error, not a 200 with zero suggestions. -/
theorem wrongshape_json_error_counterexample :
    (POST none (UpstreamOutcome.content (ParseOutcome.parsed
        (ParsedResponse.value SuggestionsField.truthyNonArray)))
      ⟨some (JsonVal.jstr "p"), some "sk-abc"⟩).response =
      ⟨500, ApiBody.errorBody "Failed to refine prompt"⟩ ∧
    (POST none (UpstreamOutcome.content (ParseOutcome.parsed ParsedResponse.nullRoot))
      ⟨some (JsonVal.jstr "p"), some "sk-abc"⟩).response =
      ⟨500, ApiBody.errorBody "Failed to refine prompt"⟩ :=
  ⟨by decide, by decide⟩

/-- Claim C10 as amended: with a valid prompt and a resolvable
credential, valid upstream JSON whose `suggestions` property is absent or
falsy (for example an empty object root) yields status 200 with an empty
list — the synthesized fallback is produced only when `JSON.parse` itself
throws; but valid JSON on which reading or slicing `suggestions` throws
(a `null` root, or a truthy non-array `suggestions` value) yields the
generic HTTP 500 error instead. -/
theorem wrongshape_json_outcomes (envKey : Option String)
    (req : RefineRequest) (prompt key : String)
    (hp : promptString req.prompt = some prompt)
    (hk : resolveKey req.apiKey envKey = some key) :
    (POST envKey (UpstreamOutcome.content (ParseOutcome.parsed
        (ParsedResponse.value SuggestionsField.missing))) req).response =
      ⟨200, ApiBody.suggestionsBody []⟩ ∧
    (POST envKey (UpstreamOutcome.content (ParseOutcome.parsed
        ParsedResponse.nullRoot)) req).response =
      ⟨500, ApiBody.errorBody "Failed to refine prompt"⟩ ∧
    (POST envKey (UpstreamOutcome.content (ParseOutcome.parsed
        (ParsedResponse.value SuggestionsField.truthyNonArray))) req).response =
      ⟨500, ApiBody.errorBody "Failed to refine prompt"⟩ := by
  refine ⟨?_, ?_, ?_⟩
  · unfold POST
    rw [hp, hk]
    rfl
  · unfold POST
    rw [hp, hk]
    rfl
  · unfold POST
    rw [hp, hk]
    rfl

/-- Witness for the amended C10 at a concrete request. -/
theorem wrongshape_json_outcomes_witness :
    promptString (some (JsonVal.jstr "p")) = some "p" ∧
    resolveKey (some "sk-abc") none = some "sk-abc" ∧
    (POST none (UpstreamOutcome.content (ParseOutcome.parsed
        (ParsedResponse.value SuggestionsField.missing)))
      ⟨some (JsonVal.jstr "p"), some "sk-abc"⟩).response =
      ⟨200, ApiBody.suggestionsBody []⟩ :=
  ⟨rfl, rfl,
    (wrongshape_json_outcomes none ⟨some (JsonVal.jstr "p"), some "sk-abc"⟩
      "p" "sk-abc" rfl rfl).1⟩

/-- Claim C8: when the request carries a present non-empty credential, any
upstream call made by the handler carries that credential as the bearer
token, even when a server default exists; when the request credential is
absent or empty, any upstream call's bearer token comes from the server
default. -/
theorem request_credential_precedence (envKey : Option String)
    (req : RefineRequest) (prompt : String)
    (hp : promptString req.prompt = some prompt)
    (upstream : UpstreamOutcome) :
    (∀ k, req.apiKey = some k → k ≠ "" →
      ∀ call, (POST envKey upstream req).upstreamCall = some call →
        call.bearerToken = k)
    ∧ ((req.apiKey = none ∨ req.apiKey = some "") →
      ∀ call, (POST envKey upstream req).upstreamCall = some call →
        ∃ e, envKey = some e ∧ call.bearerToken = e) := by
  constructor
  · intro k hak hke call hc
    have hr : resolveKey req.apiKey envKey = some k := by
      rw [hak]
      exact resolveKey_some_of_request k hke envKey
    exact post_upstreamCall_bearer envKey upstream req prompt k hp hr call hc
  · intro hfalsy call hc
    cases hr : resolveKey req.apiKey envKey with
    | none =>
        unfold POST at hc
        rw [hp, hr] at hc
        exact absurd hc (by simp)
    | some key =>
        exact ⟨key, resolveKey_env req.apiKey envKey hfalsy key hr,
          post_upstreamCall_bearer envKey upstream req prompt key hp hr call hc⟩

/-- Witness for C8: both a request credential and a server default are
present, and the outbound bearer token is the request one. -/
theorem request_credential_precedence_witness :
    (POST (some "env-key") (UpstreamOutcome.content ParseOutcome.parseFail)
        ⟨some (JsonVal.jstr "p"), some "sk-user"⟩).upstreamCall =
      some ⟨"sk-user", "gpt-3.5-turbo", "Original prompt: \"p\""⟩ ∧
    UpstreamCall.bearerToken
        ⟨"sk-user", "gpt-3.5-turbo", "Original prompt: \"p\""⟩ = "sk-user" :=
  ⟨rfl,
    (request_credential_precedence (some "env-key")
        ⟨some (JsonVal.jstr "p"), some "sk-user"⟩ "p" rfl
        (UpstreamOutcome.content ParseOutcome.parseFail)).1
      "sk-user" rfl (by decide)
      ⟨"sk-user", "gpt-3.5-turbo", "Original prompt: \"p\""⟩ rfl⟩

/-- Claim C9: submitting a blank credential, or one not beginning with
`sk-`, leaves the manager state untouched (nothing written to session
storage, `onApiKeySet` never invoked) and surfaces the message naming that
specific problem; submitting a non-blank credential beginning with `sk-`
writes the trimmed credential to session storage and moves the manager to
Ready. -/
theorem apikey_setup_transitions (st : AppState) (input : String) :
    (jsTrim input = "" →
      handleSubmit input = SubmitOutcome.rejected "Please enter your OpenAI API key" ∧
      submitApiKey st input = (st, "Please enter your OpenAI API key"))
    ∧ (jsTrim input ≠ "" → jsStartsWith input "sk-" = false →
      handleSubmit input = SubmitOutcome.rejected "OpenAI API keys start with \"sk-\"" ∧
      submitApiKey st input = (st, "OpenAI API keys start with \"sk-\""))
    ∧ (jsTrim input ≠ "" → jsStartsWith input "sk-" = true →
      submitApiKey st input =
        ({ st with storedKey := some (jsTrim input), currentKey := some (jsTrim input) }, "") ∧
      isReady (submitApiKey st input).1 = true) := by
  refine ⟨?_, ?_, ?_⟩
  · intro h
    have hs : handleSubmit input = SubmitOutcome.rejected "Please enter your OpenAI API key" := by
      unfold handleSubmit
      rw [if_pos h]
    exact ⟨hs, by unfold submitApiKey; rw [hs]⟩
  · intro h hpre
    have hs : handleSubmit input =
        SubmitOutcome.rejected "OpenAI API keys start with \"sk-\"" := by
      unfold handleSubmit
      rw [if_neg h, if_pos hpre]
    exact ⟨hs, by unfold submitApiKey; rw [hs]⟩
  · intro h hpre
    have hs : handleSubmit input = SubmitOutcome.accepted (jsTrim input) := by
      unfold handleSubmit
      rw [if_neg h, if_neg (by rw [hpre]; simp)]
    have hsub : submitApiKey st input =
        ({ st with storedKey := some (jsTrim input), currentKey := some (jsTrim input) }, "") := by
      unfold submitApiKey
      rw [hs]
      rfl
    exact ⟨hsub, by rw [hsub]; rfl⟩

/-- Witness for C9 at a concrete valid credential accepted from the
Unconfigured state. -/
theorem apikey_setup_transitions_witness :
    jsTrim "sk-abc" ≠ "" ∧ jsStartsWith "sk-abc" "sk-" = true ∧
    submitApiKey ⟨none, none⟩ "sk-abc" = (⟨some "sk-abc", some "sk-abc"⟩, "") :=
  ⟨by decide, by decide,
    ((apikey_setup_transitions ⟨none, none⟩ "sk-abc").2.2 (by decide) (by decide)).1⟩

end PromptRefiner
